import Mathlib

/-!
Verification development for the Interactive-broker session manager
(`src/main.py`).  The eight FastAPI handlers are embedded as pure Lean
functions over an explicit system state (the `ib_connections` dictionary plus
a fresh-object counter used to give each constructed `IB()` object an
identity).  Calls into the external `ib_insync` collaborator are driven by an
environment-chosen `SessionBehavior` record, where `Except.error e` models the
call raising an exception with text `e`.  Every handler returns, besides its
JSON response, the post state and a trace of lock transitions and broker-session
calls, so that frame conditions and which-call-under-which-lock properties can
be stated.  An `async with lock:` in the source is modelled as a lock acquire /
release pair on the single module-level lock.  The disconnect and accounts
handlers instead run the synchronous `with lock:` on that `asyncio.Lock`, which
supports only the async context-manager protocol and therefore raises (a
TypeError on current Python versions, a RuntimeError on 3.9 and earlier) before
any of their guard code runs; those two handlers are modelled accordingly as an
immediate exception caught by their except-clauses.
-/

namespace IBroker

/-- Prices (Python floats in the source) are carried opaquely: the handlers
never do arithmetic on them, they only pass them through to order objects. -/
abbrev Price := Rat

/-- One row of an account summary, as returned by `accountSummaryAsync`. -/
structure AccountValue where
  account : String
  tag : String
  value : String
  currency : String
deriving Repr, DecidableEq

/-- One row of `ib.reqPositions()`: contract symbol and signed quantity. -/
structure Position where
  symbol : String
  position : Int
deriving Repr, DecidableEq

/-- The order part of an open trade (the fields read by `/api/orders` and
passed to `ib.cancelOrder`). -/
structure TradeOrder where
  orderId : Int
  clientId : Int
  permId : Int
  action : String
  totalQuantity : Int
  orderType : String
  lmtPrice : Price
  auxPrice : Price
  tif : String
deriving Repr, DecidableEq

/-- The contract part of an open trade. -/
structure TradeContract where
  symbol : String
  exchange : String
  currency : String
deriving Repr, DecidableEq

/-- One element of `ib.openTrades()`. -/
structure Trade where
  order : TradeOrder
  contract : TradeContract
  orderStatus : String
deriving Repr, DecidableEq

/-- An order submitted through `ib.placeOrder`: the constructor arguments of
`MarketOrder` / `StopOrder` / `LimitOrder` plus the optional `tif` field the
code sometimes assigns afterwards. -/
structure Order where
  action : String
  orderType : String
  totalQuantity : Int
  price : Option Price
  tif : Option String
deriving Repr, DecidableEq

/-- `MarketOrder(action, qty)` of ib_insync. -/
def MarketOrder (action : String) (qty : Int) : Order :=
  { action := action, orderType := "MKT", totalQuantity := qty, price := none, tif := none }

/-- `StopOrder(action, qty, stopPrice)` of ib_insync. -/
def StopOrder (action : String) (qty : Int) (stopPrice : Price) : Order :=
  { action := action, orderType := "STP", totalQuantity := qty, price := some stopPrice, tif := none }

/-- `LimitOrder(action, qty, lmtPrice)` of ib_insync. -/
def LimitOrder (action : String) (qty : Int) (lmtPrice : Price) : Order :=
  { action := action, orderType := "LMT", totalQuantity := qty, price := some lmtPrice, tif := none }

/-- Observable effects of one request: transitions of the module-level lock
and calls into the broker session object.  `place o` records
`ib.placeOrder(contract, o)` together with the submitted order. -/
inductive Event where
  | lockAcquire
  | lockRelease
  | brokerOp (name : String)
  | place (o : Order)
deriving Repr, DecidableEq

/-- Environment-chosen behavior of one IB session object: the outcome of each
call a handler makes into it.  `Except.error e` models the call raising an
exception with message `e`.  `placeOrderResult` and `cancelResult` are indexed
by the per-request call number because a single request may issue several such
calls.  `connectResult` bundles the outcome of `connectAsync` together with the
`isConnected()` value it leaves behind on success.  `openTradesResult` is a
local cache read in ib_insync, modelled as a plain value. -/
structure SessionBehavior where
  connectResult : Except String Bool
  accountSummary : Except String (List AccountValue)
  disconnectResult : Except String Unit
  qualifyResult : Except String Unit
  placeOrderResult : Nat → Except String Unit
  positionsResult : Except String (List Position)
  openTradesResult : List Trade
  cancelResult : Nat → Except String Unit

/-- One `IB` object: an identity (allocation number), its current
`isConnected()` value, and its environment-chosen behavior. -/
structure IBSession where
  sid : Nat
  connected : Bool
  beh : SessionBehavior

/-- The module-level mutable state of `main.py`: the `ib_connections`
dictionary (an association list keyed by client id) and the counter providing
identities for newly constructed `IB()` objects. -/
structure SysState where
  ib_connections : List (Int × IBSession)
  nextSid : Nat

/-- `client_id in ib_connections` and `ib_connections[client_id]` combined:
the entry stored for a client id, if any. -/
def findEntry (s : SysState) (cid : Int) : Option IBSession :=
  (s.ib_connections.find? (fun p => p.1 == cid)).map (fun p => p.2)

/-- `ib_connections[cid] = v` on the dictionary: replace the binding if the
key is present, otherwise append a new binding. -/
def setEntry : List (Int × IBSession) → Int → IBSession → List (Int × IBSession)
  | [], cid, v => [(cid, v)]
  | p :: ps, cid, v => if p.1 == cid then (cid, v) :: ps else p :: setEntry ps cid v

/-- The per-trade dictionary built by `/api/orders`. -/
structure OrderData where
  orderId : Int
  clientId : Int
  permId : Int
  action : String
  totalQuantity : Int
  orderType : String
  lmtPrice : Price
  auxPrice : Price
  tif : String
  symbol : String
  exchange : String
  currency : String
  orderStatus : String
deriving Repr, DecidableEq

/-- Flattened shape of the JSON dictionaries the handlers return.  `status`,
`message` and `clientId` occur in every returned dictionary (the connect
success shape nests `clientId` inside `data`; it is flattened here); the
remaining fields appear only in the responses that set them. -/
structure Response where
  status : Bool
  message : String
  clientId : Int
  net_liquidity : Option String := none
  currency : Option String := none
  account_id : Option String := none
  accounts : Option (List AccountValue) := none
  positions : Option (List Position) := none
  flat_position : Option Int := none
  order_position : Option (Option Position) := none
  orders : Option (List OrderData) := none
deriving Repr, DecidableEq

/-- The response produced by the except-clause of every handler:
status false, the exception text after an Error marker, and the client id. -/
def errResp (cid : Int) (e : String) : Response :=
  { status := false, message := "Error: " ++ e, clientId := cid }

/-- The try/except wrapper every handler body runs under: a body outcome of
`Except.ok r` is returned as is, `Except.error e` (an exception reaching the
except-clause) is converted by `onErr` into the handler-specific error
response.  State changes and events made before the exception survive. -/
def runHandler (onErr : String → Response)
    (b : Except String Response × SysState × List Event) :
    Response × SysState × List Event :=
  match b with
  | (Except.ok r, s1, es) => (r, s1, es)
  | (Except.error e, s1, es) => (onErr e, s1, es)

/-- Request body of POST /api/connect. -/
structure ConnectRequest where
  host : String
  port : Int
  client_id : Int

/-- Request body of POST /api/send-order. -/
structure OrderRequest where
  client_id : Int
  symbol : String
  exchange : String := "SMART"
  currency : String := "USD"
  position_qty : Int
  stop_price : Price
  limit_price : Price
  tif : String := "GTC"

/-- Request body of POST /api/flatten. -/
structure FlattenOrderRequest where
  client_id : Int
  symbol : String
  exchange : String := "SMART"
  currency : String := "USD"
  tif : String := "GTC"

/-- The state after `ib = IB(); ib_connections[request.client_id] = ib` in
`connect_ib`: a fresh, not yet connected session with identity `s.nextSid`
is stored for the client id. -/
def freshState (s : SysState) (cid : Int) (nb : SessionBehavior) : SysState :=
  { ib_connections := setEntry s.ib_connections cid ⟨s.nextSid, false, nb⟩,
    nextSid := s.nextSid + 1 }

/-- The state after `await ib.connectAsync(...)` returned: the same stored
object now reports `isConnected() = b`. -/
def freshConnState (s : SysState) (cid : Int) (nb : SessionBehavior) (b : Bool) : SysState :=
  { ib_connections :=
      setEntry (freshState s cid nb).ib_connections cid ⟨s.nextSid, b, nb⟩,
    nextSid := s.nextSid + 1 }

/-- The create-and-connect path of `connect_ib` (lines 83 to 119): taken both
for a never-seen client id and for a present-but-disconnected one.  A new
`IB()` object is constructed and stored under the lock, the lock is released,
then `connectAsync` runs; on `isConnected()` the account summary is fetched
(`accounts[0]` raises IndexError on an empty summary), otherwise the handler
reports a failed connection, leaving the stored entry in place. -/
def connectFresh (s : SysState) (req : ConnectRequest) (nb : SessionBehavior) :
    Except String Response × SysState × List Event :=
  match nb.connectResult with
  | Except.error e =>
      (Except.error e, freshState s req.client_id nb,
       [Event.lockAcquire, Event.lockRelease, Event.brokerOp "connectAsync"])
  | Except.ok b =>
      if b then
        match nb.accountSummary with
        | Except.error e =>
            (Except.error e, freshConnState s req.client_id nb b,
             [Event.lockAcquire, Event.lockRelease, Event.brokerOp "connectAsync",
              Event.brokerOp "accountSummaryAsync"])
        | Except.ok [] =>
            (Except.error "list index out of range", freshConnState s req.client_id nb b,
             [Event.lockAcquire, Event.lockRelease, Event.brokerOp "connectAsync",
              Event.brokerOp "accountSummaryAsync"])
        | Except.ok (first :: rest) =>
            (Except.ok
              { status := true, message := "Connected", clientId := req.client_id,
                net_liquidity :=
                  ((first :: rest).find? (fun a => a.tag == "NetLiquidation")).map
                    (fun a => a.value),
                currency :=
                  ((first :: rest).find? (fun a => a.tag == "NetLiquidation")).map
                    (fun a => a.currency),
                account_id := some first.account },
             freshConnState s req.client_id nb b,
             [Event.lockAcquire, Event.lockRelease, Event.brokerOp "connectAsync",
              Event.brokerOp "accountSummaryAsync"])
      else
        (Except.ok { status := false, message := "Connection failed", clientId := req.client_id },
         freshConnState s req.client_id nb b,
         [Event.lockAcquire, Event.lockRelease, Event.brokerOp "connectAsync"])

/-- Body of POST /api/connect (`connect_ib`, lines 51 to 119).  Under the lock:
if an entry exists and reports connected, the account summary is fetched and
an already-connected response returned, all while the lock is held; otherwise
the create-and-connect path runs.  `nb` is the behavior of the `IB()` object
constructed if the reuse check fails. -/
def connectBody (s : SysState) (req : ConnectRequest) (nb : SessionBehavior) :
    Except String Response × SysState × List Event :=
  match findEntry s req.client_id with
  | some sess =>
      if sess.connected then
        match sess.beh.accountSummary with
        | Except.error e =>
            (Except.error e, s,
             [Event.lockAcquire, Event.brokerOp "accountSummaryAsync", Event.lockRelease])
        | Except.ok [] =>
            (Except.error "list index out of range", s,
             [Event.lockAcquire, Event.brokerOp "accountSummaryAsync", Event.lockRelease])
        | Except.ok (first :: rest) =>
            (Except.ok
              { status := true, message := "Already connected", clientId := req.client_id,
                net_liquidity :=
                  ((first :: rest).find? (fun a => a.tag == "NetLiquidation")).map
                    (fun a => a.value),
                currency :=
                  ((first :: rest).find? (fun a => a.tag == "NetLiquidation")).map
                    (fun a => a.currency),
                account_id := some first.account },
             s,
             [Event.lockAcquire, Event.brokerOp "accountSummaryAsync", Event.lockRelease])
      else connectFresh s req nb
  | none => connectFresh s req nb

/-- POST /api/connect with its except-clause. -/
def connect_ib (s : SysState) (req : ConnectRequest) (nb : SessionBehavior) :
    Response × SysState × List Event :=
  runHandler (errResp req.client_id) (connectBody s req nb)

/-- Representative text of the exception raised by the synchronous
with-statement on an `asyncio.Lock`: the lock supports only the async
context-manager protocol, so `with lock:` raises a TypeError on current
Python versions and a RuntimeError on 3.9 and earlier (nest_asyncio patches
only event-loop re-entrancy, not this).  The exact wording differs across
Python versions and no theorem depends on it. -/
def lockTypeError : String :=
  "asyncio.Lock does not support the synchronous context manager protocol"

/-- Body of GET /api/disconnect (`disconnect_ib`, lines 124 to 148).  Line 130
runs the synchronous `with lock:` on the module-level `asyncio.Lock`, which
raises before the membership test, so the guard, the `isConnected()` check,
the `ib.disconnect` call and the entry deletion of lines 131 to 145 are
unreachable and every call flows to the except-clause.  No lock is acquired
and no broker call is made, so the state is unchanged and the trace empty. -/
def disconnectBody (s : SysState) (_cid : Int) :
    Except String Response × SysState × List Event :=
  (Except.error lockTypeError, s, [])

/-- GET /api/disconnect with its except-clause. -/
def disconnect_ib (s : SysState) (cid : Int) : Response × SysState × List Event :=
  runHandler (errResp cid) (disconnectBody s cid)

/-- Body of GET /api/accounts (the first `get_accounts`, lines 150 to 170).
Line 156 runs the synchronous `with lock:` on the module-level `asyncio.Lock`,
which raises before the membership test, so the guard and the summary fetch of
lines 157 to 167 are unreachable and every call flows to the except-clause
(which adds an empty accounts list).  No lock is acquired and no broker call
is made. -/
def get_accountsBody (s : SysState) (_cid : Int) :
    Except String Response × SysState × List Event :=
  (Except.error lockTypeError, s, [])

/-- GET /api/accounts with its except-clause (which adds an empty accounts
list to the error response). -/
def get_accounts (s : SysState) (cid : Int) : Response × SysState × List Event :=
  runHandler (fun e => { errResp cid e with accounts := some [] }) (get_accountsBody s cid)

/-- Body of GET /api/account-detail (lines 173 to 197; the source names this
handler `get_accounts` as well, shadowing the first).  Identical guard
sequence but with no lock around the membership test, and the success
response additionally carries the extracted net liquidity and currency. -/
def get_account_detailBody (s : SysState) (cid : Int) :
    Except String Response × SysState × List Event :=
  match findEntry s cid with
  | none =>
      (Except.ok { status := false, message := "No connection found for clientId", clientId := cid },
       s, [])
  | some ib =>
      if !ib.connected then
        (Except.ok { status := false, message := "Not connected", clientId := cid }, s, [])
      else
        match ib.beh.accountSummary with
        | Except.error e => (Except.error e, s, [Event.brokerOp "accountSummaryAsync"])
        | Except.ok accounts =>
            (Except.ok { status := true, message := "Accounts retrieved successfully",
                         clientId := cid, accounts := some accounts,
                         net_liquidity :=
                           (accounts.find? (fun a => a.tag == "NetLiquidation")).map
                             (fun a => a.value),
                         currency :=
                           (accounts.find? (fun a => a.tag == "NetLiquidation")).map
                             (fun a => a.currency) },
             s, [Event.brokerOp "accountSummaryAsync"])

/-- GET /api/account-detail with its except-clause. -/
def get_account_detail (s : SysState) (cid : Int) : Response × SysState × List Event :=
  runHandler (fun e => { errResp cid e with accounts := some [] }) (get_account_detailBody s cid)

/-- Body of POST /api/send-order (`place_gtc_orders`, lines 199 to 240).
After the guard: qualify the contract, place a market BUY of `position_qty`,
a stop SELL of `abs(position_qty)` at the stop price, a limit SELL of
`abs(position_qty)` at the limit price (both with the requested tif), then
query positions and report the first position for the symbol. -/
def place_gtc_ordersBody (s : SysState) (req : OrderRequest) :
    Except String Response × SysState × List Event :=
  match findEntry s req.client_id with
  | none =>
      (Except.ok { status := false, message := "No connection found for clientId",
                   clientId := req.client_id },
       s, [Event.lockAcquire, Event.lockRelease])
  | some ib =>
      if !ib.connected then
        (Except.ok { status := false, message := "Not connected", clientId := req.client_id },
         s, [Event.lockAcquire, Event.lockRelease])
      else
        match ib.beh.qualifyResult with
        | Except.error e =>
            (Except.error e, s,
             [Event.lockAcquire, Event.lockRelease, Event.brokerOp "qualifyContracts"])
        | Except.ok _ =>
            match ib.beh.placeOrderResult 0 with
            | Except.error e =>
                (Except.error e, s,
                 [Event.lockAcquire, Event.lockRelease, Event.brokerOp "qualifyContracts",
                  Event.place (MarketOrder "BUY" req.position_qty)])
            | Except.ok _ =>
                match ib.beh.placeOrderResult 1 with
                | Except.error e =>
                    (Except.error e, s,
                     [Event.lockAcquire, Event.lockRelease, Event.brokerOp "qualifyContracts",
                      Event.place (MarketOrder "BUY" req.position_qty),
                      Event.place { StopOrder "SELL" (abs req.position_qty) req.stop_price with
                                      tif := some req.tif }])
                | Except.ok _ =>
                    match ib.beh.placeOrderResult 2 with
                    | Except.error e =>
                        (Except.error e, s,
                         [Event.lockAcquire, Event.lockRelease, Event.brokerOp "qualifyContracts",
                          Event.place (MarketOrder "BUY" req.position_qty),
                          Event.place { StopOrder "SELL" (abs req.position_qty) req.stop_price with
                                          tif := some req.tif },
                          Event.place { LimitOrder "SELL" (abs req.position_qty) req.limit_price with
                                          tif := some req.tif }])
                    | Except.ok _ =>
                        match ib.beh.positionsResult with
                        | Except.error e =>
                            (Except.error e, s,
                             [Event.lockAcquire, Event.lockRelease,
                              Event.brokerOp "qualifyContracts",
                              Event.place (MarketOrder "BUY" req.position_qty),
                              Event.place { StopOrder "SELL" (abs req.position_qty)
                                              req.stop_price with tif := some req.tif },
                              Event.place { LimitOrder "SELL" (abs req.position_qty)
                                              req.limit_price with tif := some req.tif },
                              Event.brokerOp "reqPositions"])
                        | Except.ok positions =>
                            (Except.ok
                              { status := true, message := "Orders placed successfully",
                                clientId := req.client_id,
                                order_position :=
                                  some (positions.find? (fun p => p.symbol == req.symbol)) },
                             s,
                             [Event.lockAcquire, Event.lockRelease,
                              Event.brokerOp "qualifyContracts",
                              Event.place (MarketOrder "BUY" req.position_qty),
                              Event.place { StopOrder "SELL" (abs req.position_qty)
                                              req.stop_price with tif := some req.tif },
                              Event.place { LimitOrder "SELL" (abs req.position_qty)
                                              req.limit_price with tif := some req.tif },
                              Event.brokerOp "reqPositions"])

/-- POST /api/send-order with its except-clause. -/
def place_gtc_orders (s : SysState) (req : OrderRequest) : Response × SysState × List Event :=
  runHandler (errResp req.client_id) (place_gtc_ordersBody s req)

/-- The cancel loop of /api/flatten (lines 265 to 269), one `cancelOrder` call
per matching open trade.  When a `cancelOrder` call raises, the except-clause
of the loop evaluates an f-string that names the undefined local `symbol`, so
the loop terminates with that NameError instead of continuing. -/
def runCancels (beh : SessionBehavior) : List Trade → Nat → Except String Unit × List Event
  | [], _ => (Except.ok (), [])
  | _ :: ts, i =>
    match beh.cancelResult i with
    | Except.ok _ =>
        ((runCancels beh ts (i + 1)).1,
         Event.brokerOp "cancelOrder" :: (runCancels beh ts (i + 1)).2)
    | Except.error _ =>
        (Except.error "name symbol is not defined", [Event.brokerOp "cancelOrder"])

/-- Body of POST /api/flatten (`flatten_order`, lines 242 to 308).  After the
guard: read the open trades; with no trade for the symbol the handler tries to
build its failure message from the undefined local `symbol` and raises a
NameError (lines 261 and 262 of the source).  Otherwise cancel each matching
trade, qualify the contract, query positions, and place the offsetting market
order decided by the sign of the first position found for the symbol. -/
def flatten_orderBody (s : SysState) (req : FlattenOrderRequest) :
    Except String Response × SysState × List Event :=
  match findEntry s req.client_id with
  | none =>
      (Except.ok { status := false, message := "No connection found for clientId",
                   clientId := req.client_id },
       s, [Event.lockAcquire, Event.lockRelease])
  | some ib =>
      if !ib.connected then
        (Except.ok { status := false, message := "Not connected", clientId := req.client_id },
         s, [Event.lockAcquire, Event.lockRelease])
      else
        match ib.beh.openTradesResult.filter (fun t => t.contract.symbol == req.symbol) with
        | [] =>
            (Except.error "name symbol is not defined", s,
             Event.lockAcquire :: Event.lockRelease :: [Event.brokerOp "openTrades"])
        | t0 :: ts =>
            match (runCancels ib.beh (t0 :: ts) 0).1 with
            | Except.error e =>
                (Except.error e, s,
                 Event.lockAcquire :: Event.lockRelease :: Event.brokerOp "openTrades" ::
                   (runCancels ib.beh (t0 :: ts) 0).2)
            | Except.ok _ =>
                match ib.beh.qualifyResult with
                | Except.error e =>
                    (Except.error e, s,
                     Event.lockAcquire :: Event.lockRelease :: Event.brokerOp "openTrades" ::
                       ((runCancels ib.beh (t0 :: ts) 0).2 ++
                         [Event.brokerOp "qualifyContracts"]))
                | Except.ok _ =>
                    match ib.beh.positionsResult with
                    | Except.error e =>
                        (Except.error e, s,
                         Event.lockAcquire :: Event.lockRelease :: Event.brokerOp "openTrades" ::
                           ((runCancels ib.beh (t0 :: ts) 0).2 ++
                             [Event.brokerOp "qualifyContracts", Event.brokerOp "reqPositions"]))
                    | Except.ok positions =>
                        match positions.find? (fun p => p.symbol == req.symbol) with
                        | none =>
                            (Except.ok { status := false,
                                         message := "No position found for symbol " ++ req.symbol,
                                         clientId := req.client_id },
                             s,
                             Event.lockAcquire :: Event.lockRelease ::
                               Event.brokerOp "openTrades" ::
                               ((runCancels ib.beh (t0 :: ts) 0).2 ++
                                 [Event.brokerOp "qualifyContracts",
                                  Event.brokerOp "reqPositions"]))
                        | some pos =>
                            if pos.position > 0 then
                              (match ib.beh.placeOrderResult 0 with
                               | Except.error e =>
                                   Except.error e
                               | Except.ok _ =>
                                   Except.ok { status := true,
                                               message := "Symbol flatten successfully",
                                               clientId := req.client_id,
                                               flat_position := some pos.position },
                               s,
                               Event.lockAcquire :: Event.lockRelease ::
                                 Event.brokerOp "openTrades" ::
                                 ((runCancels ib.beh (t0 :: ts) 0).2 ++
                                   [Event.brokerOp "qualifyContracts",
                                    Event.brokerOp "reqPositions",
                                    Event.place { MarketOrder "SELL" pos.position with
                                                    tif := some req.tif }]))
                            else if pos.position < 0 then
                              (match ib.beh.placeOrderResult 0 with
                               | Except.error e =>
                                   Except.error e
                               | Except.ok _ =>
                                   Except.ok { status := true,
                                               message := "Symbol flatten successfully",
                                               clientId := req.client_id,
                                               flat_position := some pos.position },
                               s,
                               Event.lockAcquire :: Event.lockRelease ::
                                 Event.brokerOp "openTrades" ::
                                 ((runCancels ib.beh (t0 :: ts) 0).2 ++
                                   [Event.brokerOp "qualifyContracts",
                                    Event.brokerOp "reqPositions",
                                    Event.place { MarketOrder "BUY" (abs pos.position) with
                                                    tif := some req.tif }]))
                            else
                              (Except.ok { status := false, message := "No position to flatten",
                                           clientId := req.client_id },
                               s,
                               Event.lockAcquire :: Event.lockRelease ::
                                 Event.brokerOp "openTrades" ::
                                 ((runCancels ib.beh (t0 :: ts) 0).2 ++
                                   [Event.brokerOp "qualifyContracts",
                                    Event.brokerOp "reqPositions"]))

/-- POST /api/flatten with its except-clause. -/
def flatten_order (s : SysState) (req : FlattenOrderRequest) : Response × SysState × List Event :=
  runHandler (errResp req.client_id) (flatten_orderBody s req)

/-- Body of GET /api/contracts-position (`get_contracts_position`, lines 310
to 327): guard, then `ib.reqPositions()`. -/
def get_contracts_positionBody (s : SysState) (cid : Int) :
    Except String Response × SysState × List Event :=
  match findEntry s cid with
  | none =>
      (Except.ok { status := false, message := "No connection found for clientId", clientId := cid },
       s, [Event.lockAcquire, Event.lockRelease])
  | some ib =>
      if !ib.connected then
        (Except.ok { status := false, message := "Not connected", clientId := cid },
         s, [Event.lockAcquire, Event.lockRelease])
      else
        match ib.beh.positionsResult with
        | Except.error e =>
            (Except.error e, s,
             [Event.lockAcquire, Event.lockRelease, Event.brokerOp "reqPositions"])
        | Except.ok positions =>
            (Except.ok { status := true, message := "Contracts position retrieved successfully",
                         clientId := cid, positions := some positions },
             s, [Event.lockAcquire, Event.lockRelease, Event.brokerOp "reqPositions"])

/-- GET /api/contracts-position with its except-clause. -/
def get_contracts_position (s : SysState) (cid : Int) : Response × SysState × List Event :=
  runHandler (errResp cid) (get_contracts_positionBody s cid)

/-- The per-trade dictionary of /api/orders (lines 348 to 362). -/
def orderDataOf (t : Trade) : OrderData :=
  { orderId := t.order.orderId, clientId := t.order.clientId, permId := t.order.permId,
    action := t.order.action, totalQuantity := t.order.totalQuantity,
    orderType := t.order.orderType, lmtPrice := t.order.lmtPrice, auxPrice := t.order.auxPrice,
    tif := t.order.tif, symbol := t.contract.symbol, exchange := t.contract.exchange,
    currency := t.contract.currency, orderStatus := t.orderStatus }

/-- Body of GET /api/orders (`get_orders`, lines 329 to 368): guard, then map
`ib.openTrades()` to response dictionaries. -/
def get_ordersBody (s : SysState) (cid : Int) :
    Except String Response × SysState × List Event :=
  match findEntry s cid with
  | none =>
      (Except.ok { status := false, message := "No connection found for clientId", clientId := cid },
       s, [Event.lockAcquire, Event.lockRelease])
  | some ib =>
      if !ib.connected then
        (Except.ok { status := false, message := "Not connected", clientId := cid },
         s, [Event.lockAcquire, Event.lockRelease])
      else
        (Except.ok { status := true, message := "Fetched orders successfully", clientId := cid,
                     orders := some (ib.beh.openTradesResult.map orderDataOf) },
         s, [Event.lockAcquire, Event.lockRelease, Event.brokerOp "openTrades"])

/-- GET /api/orders with its except-clause. -/
def get_orders (s : SysState) (cid : Int) : Response × SysState × List Event :=
  runHandler (errResp cid) (get_ordersBody s cid)

/-- Broker-session calls that suspend for network I/O.  `isConnected()` and
`openTrades()` are local reads in ib_insync and are excluded. -/
def netName (n : String) : Bool :=
  n == "connectAsync" || n == "accountSummaryAsync" || n == "disconnect" ||
    n == "qualifyContracts" || n == "reqPositions" || n == "cancelOrder"

/-- Whether an event is a network call into the broker session. -/
def isNetCall : Event → Bool
  | Event.brokerOp n => netName n
  | Event.place _ => true
  | _ => false

/-- Whether an event is any call into the broker session object. -/
def isBrokerCall : Event → Bool
  | Event.brokerOp _ => true
  | Event.place _ => true
  | _ => false

/-- The network-call events of a trace that occur while the lock is held,
tracked by lock depth. -/
def netUnderLockAux : Nat → List Event → List Event
  | _, [] => []
  | d, Event.lockAcquire :: es => netUnderLockAux (d + 1) es
  | d, Event.lockRelease :: es => netUnderLockAux (d - 1) es
  | d, e :: es =>
      (if isNetCall e && !(d == 0) then [e] else []) ++ netUnderLockAux d es

/-- The network-call events of a trace that occur while the lock is held. -/
def netUnderLock (es : List Event) : List Event := netUnderLockAux 0 es

/-- The orders submitted through `ib.placeOrder` in a trace, in order. -/
def placedOrders : List Event → List Order
  | [] => []
  | Event.place o :: es => o :: placedOrders es
  | _ :: es => placedOrders es

/-! Concrete fixtures used by witnesses and counterexamples. -/

/-- A one-row account summary carrying a net liquidation value. -/
def acct1 : AccountValue :=
  { account := "DU111", tag := "NetLiquidation", value := "1000.0", currency := "USD" }

/-- One open trade on the AAPL contract. -/
def tradeA : Trade :=
  { order := { orderId := 7, clientId := 1, permId := 11, action := "BUY", totalQuantity := 5,
               orderType := "LMT", lmtPrice := 10, auxPrice := 0, tif := "GTC" },
    contract := { symbol := "AAPL", exchange := "SMART", currency := "USD" },
    orderStatus := "Submitted" }

/-- A collaborator behavior in which every broker call succeeds. -/
def behOk : SessionBehavior :=
  { connectResult := Except.ok true,
    accountSummary := Except.ok [acct1],
    disconnectResult := Except.ok (),
    qualifyResult := Except.ok (),
    placeOrderResult := fun _ => Except.ok (),
    positionsResult := Except.ok [{ symbol := "AAPL", position := 5 }],
    openTradesResult := [tradeA],
    cancelResult := fun _ => Except.ok () }

/-- A stored session object reporting connected. -/
def sessConn : IBSession := { sid := 0, connected := true, beh := behOk }

/-- A stored session object reporting disconnected. -/
def sessDisc : IBSession := { sid := 0, connected := false, beh := behOk }

/-- Registry holding a connected session for client 1. -/
def sConn : SysState := { ib_connections := [(1, sessConn)], nextSid := 1 }

/-- Registry holding a disconnected session for client 1. -/
def sDisc : SysState := { ib_connections := [(1, sessDisc)], nextSid := 1 }

/-- The empty registry. -/
def sEmpty : SysState := { ib_connections := [], nextSid := 0 }

/-- A concrete connect request for client 1. -/
def creq1 : ConnectRequest := { host := "127.0.0.1", port := 7497, client_id := 1 }

/-- A concrete send-order request for client 1. -/
def oreq1 : OrderRequest :=
  { client_id := 1, symbol := "AAPL", position_qty := 5, stop_price := 95, limit_price := 110 }

/-- A concrete flatten request for client 1. -/
def freq1 : FlattenOrderRequest := { client_id := 1, symbol := "AAPL" }

/-- The no-connection-found failure response of the guard sequence. -/
def noConnResp (cid : Int) : Response :=
  { status := false, message := "No connection found for clientId", clientId := cid }

/-- The not-connected failure response of the guard sequence. -/
def notConnResp (cid : Int) : Response :=
  { status := false, message := "Not connected", clientId := cid }

/-- A bare lock acquire and release: the whole trace of a request that fails
its guard under the lock. -/
def lockPair : List Event := [Event.lockAcquire, Event.lockRelease]

/-- C1: the guard sequence holds for five of the six guarded operations.  For
account-detail, send-order, flatten, contracts-position and orders: an absent
client id yields the status-false no-connection-found response echoing the
client id, a present-but-disconnected one the status-false not-connected
response, each with the state unchanged and a trace of at most a bare lock
pair, so no broker operation is invoked.  The accounts operation, however,
raises at its synchronous with-statement on the asyncio lock before its guard
runs: for every state and client id it returns the status-false Error
response with an empty accounts list, never the guard responses the claim
asserts for it. -/
theorem c1_guards_except_accounts (s : SysState) (cid : Int) (oreq : OrderRequest)
    (freq : FlattenOrderRequest) (hoc : oreq.client_id = cid) (hfc : freq.client_id = cid) :
    (findEntry s cid = none →
      get_account_detail s cid = (noConnResp cid, s, []) ∧
      place_gtc_orders s oreq = (noConnResp cid, s, lockPair) ∧
      flatten_order s freq = (noConnResp cid, s, lockPair) ∧
      get_contracts_position s cid = (noConnResp cid, s, lockPair) ∧
      get_orders s cid = (noConnResp cid, s, lockPair)) ∧
    (∀ ib, findEntry s cid = some ib → ib.connected = false →
      get_account_detail s cid = (notConnResp cid, s, []) ∧
      place_gtc_orders s oreq = (notConnResp cid, s, lockPair) ∧
      flatten_order s freq = (notConnResp cid, s, lockPair) ∧
      get_contracts_position s cid = (notConnResp cid, s, lockPair) ∧
      get_orders s cid = (notConnResp cid, s, lockPair)) ∧
    get_accounts s cid = ({ errResp cid lockTypeError with accounts := some [] }, s, []) := by
  refine ⟨fun hf => ?_, fun ib hf hc => ?_, rfl⟩
  · refine ⟨?_, ?_, ?_, ?_, ?_⟩ <;>
      simp [get_account_detail, get_account_detailBody,
        place_gtc_orders, place_gtc_ordersBody, flatten_order, flatten_orderBody,
        get_contracts_position, get_contracts_positionBody, get_orders, get_ordersBody,
        runHandler, hoc, hfc, hf, noConnResp, lockPair]
  · refine ⟨?_, ?_, ?_, ?_, ?_⟩ <;>
      simp [get_account_detail, get_account_detailBody,
        place_gtc_orders, place_gtc_ordersBody, flatten_order, flatten_orderBody,
        get_contracts_position, get_contracts_positionBody, get_orders, get_ordersBody,
        runHandler, hoc, hfc, hf, hc, notConnResp, lockPair]

/-- Witness for C1 at concrete inputs: client 1 absent from the empty
registry, and present but disconnected in the one-entry registry; plus the
accounts divergence evaluated on the empty registry. -/
theorem c1_guards_except_accounts_witness :
    (findEntry sEmpty 1 = none ∧
      get_account_detail sEmpty 1 = (noConnResp 1, sEmpty, [])) ∧
    (findEntry sDisc 1 = some sessDisc ∧ sessDisc.connected = false ∧
      get_account_detail sDisc 1 = (notConnResp 1, sDisc, [])) ∧
    get_accounts sEmpty 1 = ({ errResp 1 lockTypeError with accounts := some [] }, sEmpty, []) :=
  ⟨⟨rfl, ((c1_guards_except_accounts sEmpty 1 oreq1 freq1 rfl rfl).1 rfl).1⟩,
   ⟨rfl, rfl, (((c1_guards_except_accounts sDisc 1 oreq1 freq1 rfl rfl).2.1) sessDisc rfl rfl).1⟩,
   (c1_guards_except_accounts sEmpty 1 oreq1 freq1 rfl rfl).2.2⟩

/-- The try/except wrapper preserves a clientId invariant that holds for all
normal returns of the body and all error responses. -/
theorem runHandler_clientId (onErr : String → Response) (cid : Int)
    (b : Except String Response × SysState × List Event)
    (hok : ∀ r, b.1 = Except.ok r → r.clientId = cid)
    (herr : ∀ e, (onErr e).clientId = cid) :
    (runHandler onErr b).1.clientId = cid := by
  obtain ⟨er, s1, es⟩ := b
  cases er with
  | ok r => exact hok r rfl
  | error e => exact herr e

/-- Every normal return of the connect body carries the requesting client id. -/
theorem connectBody_clientId (s : SysState) (req : ConnectRequest) (nb : SessionBehavior) :
    ∀ r, (connectBody s req nb).1 = Except.ok r → r.clientId = req.client_id := by
  intro r
  unfold connectBody connectFresh
  repeat' split
  all_goals intro hr
  all_goals simp at hr
  all_goals try subst hr
  all_goals rfl

/-- Every return of the connect handler carries the requesting client id. -/
theorem connect_ib_clientId (s : SysState) (req : ConnectRequest) (nb : SessionBehavior) :
    (connect_ib s req nb).1.clientId = req.client_id :=
  runHandler_clientId _ _ _ (connectBody_clientId s req nb) (fun _ => rfl)

/-- Every normal return of the disconnect body carries the requesting client id. -/
theorem disconnectBody_clientId (s : SysState) (cid : Int) :
    ∀ r, (disconnectBody s cid).1 = Except.ok r → r.clientId = cid := by
  intro r hr
  simp [disconnectBody] at hr

/-- Every return of the disconnect handler carries the requesting client id. -/
theorem disconnect_ib_clientId (s : SysState) (cid : Int) :
    (disconnect_ib s cid).1.clientId = cid :=
  runHandler_clientId _ _ _ (disconnectBody_clientId s cid) (fun _ => rfl)

/-- Every normal return of the accounts body carries the requesting client id. -/
theorem get_accountsBody_clientId (s : SysState) (cid : Int) :
    ∀ r, (get_accountsBody s cid).1 = Except.ok r → r.clientId = cid := by
  intro r hr
  simp [get_accountsBody] at hr

/-- Every return of the accounts handler carries the requesting client id. -/
theorem get_accounts_clientId (s : SysState) (cid : Int) :
    (get_accounts s cid).1.clientId = cid :=
  runHandler_clientId _ _ _ (get_accountsBody_clientId s cid) (fun _ => rfl)

/-- Every normal return of the account-detail body carries the requesting
client id. -/
theorem get_account_detailBody_clientId (s : SysState) (cid : Int) :
    ∀ r, (get_account_detailBody s cid).1 = Except.ok r → r.clientId = cid := by
  intro r
  unfold get_account_detailBody
  repeat' split
  all_goals intro hr
  all_goals simp at hr
  all_goals try subst hr
  all_goals rfl

/-- Every return of the account-detail handler carries the requesting client id. -/
theorem get_account_detail_clientId (s : SysState) (cid : Int) :
    (get_account_detail s cid).1.clientId = cid :=
  runHandler_clientId _ _ _ (get_account_detailBody_clientId s cid) (fun _ => rfl)

/-- Every normal return of the send-order body carries the requesting client id. -/
theorem place_gtc_ordersBody_clientId (s : SysState) (req : OrderRequest) :
    ∀ r, (place_gtc_ordersBody s req).1 = Except.ok r → r.clientId = req.client_id := by
  intro r
  unfold place_gtc_ordersBody
  repeat' split
  all_goals intro hr
  all_goals simp at hr
  all_goals try subst hr
  all_goals rfl

/-- Every return of the send-order handler carries the requesting client id. -/
theorem place_gtc_orders_clientId (s : SysState) (req : OrderRequest) :
    (place_gtc_orders s req).1.clientId = req.client_id :=
  runHandler_clientId _ _ _ (place_gtc_ordersBody_clientId s req) (fun _ => rfl)

/-- Every normal return of the flatten body carries the requesting client id. -/
theorem flatten_orderBody_clientId (s : SysState) (req : FlattenOrderRequest) :
    ∀ r, (flatten_orderBody s req).1 = Except.ok r → r.clientId = req.client_id := by
  intro r
  unfold flatten_orderBody
  repeat' split
  all_goals intro hr
  all_goals simp at hr
  all_goals try subst hr
  all_goals rfl

/-- Every return of the flatten handler carries the requesting client id. -/
theorem flatten_order_clientId (s : SysState) (req : FlattenOrderRequest) :
    (flatten_order s req).1.clientId = req.client_id :=
  runHandler_clientId _ _ _ (flatten_orderBody_clientId s req) (fun _ => rfl)

/-- Every normal return of the contracts-position body carries the requesting
client id. -/
theorem get_contracts_positionBody_clientId (s : SysState) (cid : Int) :
    ∀ r, (get_contracts_positionBody s cid).1 = Except.ok r → r.clientId = cid := by
  intro r
  unfold get_contracts_positionBody
  repeat' split
  all_goals intro hr
  all_goals simp at hr
  all_goals try subst hr
  all_goals rfl

/-- Every return of the contracts-position handler carries the requesting
client id. -/
theorem get_contracts_position_clientId (s : SysState) (cid : Int) :
    (get_contracts_position s cid).1.clientId = cid :=
  runHandler_clientId _ _ _ (get_contracts_positionBody_clientId s cid) (fun _ => rfl)

/-- Every normal return of the orders body carries the requesting client id. -/
theorem get_ordersBody_clientId (s : SysState) (cid : Int) :
    ∀ r, (get_ordersBody s cid).1 = Except.ok r → r.clientId = cid := by
  intro r
  unfold get_ordersBody
  repeat' split
  all_goals intro hr
  all_goals simp at hr
  all_goals try subst hr
  all_goals rfl

/-- Every return of the orders handler carries the requesting client id. -/
theorem get_orders_clientId (s : SysState) (cid : Int) :
    (get_orders s cid).1.clientId = cid :=
  runHandler_clientId _ _ _ (get_ordersBody_clientId s cid) (fun _ => rfl)

/-- The try/except wrapper changes only the response, never the post state or
the trace. -/
theorem runHandler_trace (onErr : String → Response)
    (b : Except String Response × SysState × List Event) :
    (runHandler onErr b).2 = b.2 := by
  obtain ⟨er, s1, es⟩ := b
  cases er <;> rfl

/-- Looking a key up right after storing it yields the stored session. -/
theorem find?_setEntry (m : List (Int × IBSession)) (cid : Int) (v : IBSession) :
    (setEntry m cid v).find? (fun p => p.1 == cid) = some (cid, v) := by
  induction m with
  | nil => simp [setEntry]
  | cons p ps ih =>
    cases hpc : (p.1 == cid) with
    | true => simp [setEntry, hpc]
    | false => simp [setEntry, hpc, ih]

/-- Looking up the client id right after the fresh-session insert of connect
yields the fresh, not yet connected session. -/
theorem findEntry_freshState (s : SysState) (cid : Int) (nb : SessionBehavior) :
    findEntry (freshState s cid nb) cid = some ⟨s.nextSid, false, nb⟩ := by
  simp [findEntry, freshState, find?_setEntry]

/-- Looking up the client id after `connectAsync` returned yields the same
fresh session with its final connection flag. -/
theorem findEntry_freshConnState (s : SysState) (cid : Int) (nb : SessionBehavior) (b : Bool) :
    findEntry (freshConnState s cid nb b) cid = some ⟨s.nextSid, b, nb⟩ := by
  simp [findEntry, freshConnState, find?_setEntry]

/-- Allocation counter after the fresh-session insert. -/
theorem freshState_nextSid (s : SysState) (cid : Int) (nb : SessionBehavior) :
    (freshState s cid nb).nextSid = s.nextSid + 1 := rfl

/-- Allocation counter after `connectAsync` returned. -/
theorem freshConnState_nextSid (s : SysState) (cid : Int) (nb : SessionBehavior) (b : Bool) :
    (freshConnState s cid nb b).nextSid = s.nextSid + 1 := rfl

/-- C3: connect on a client id whose stored session reports connected returns
the status-true already-connected response with account data taken from that
same session object at call time, performs no `connectAsync` call (its trace
is exactly lock acquire, account summary fetch, lock release), and leaves the
registry state unchanged. -/
theorem c3_connect_already_connected (s : SysState) (req : ConnectRequest)
    (nb : SessionBehavior) (sess : IBSession) (first : AccountValue) (rest : List AccountValue)
    (hfind : findEntry s req.client_id = some sess)
    (hconn : sess.connected = true)
    (hacc : sess.beh.accountSummary = Except.ok (first :: rest)) :
    connect_ib s req nb =
      ({ status := true, message := "Already connected", clientId := req.client_id,
         net_liquidity :=
           ((first :: rest).find? (fun a => a.tag == "NetLiquidation")).map (fun a => a.value),
         currency :=
           ((first :: rest).find? (fun a => a.tag == "NetLiquidation")).map (fun a => a.currency),
         account_id := some first.account },
       s,
       [Event.lockAcquire, Event.brokerOp "accountSummaryAsync", Event.lockRelease]) := by
  simp [connect_ib, connectBody, runHandler, hfind, hconn, hacc]

/-- Witness for C3: a connected client 1 with a one-row summary gets the
already-connected response with the live data, and the state is returned
unchanged. -/
theorem c3_connect_already_connected_witness :
    (findEntry sConn 1 = some sessConn ∧ sessConn.connected = true ∧
      sessConn.beh.accountSummary = Except.ok [acct1]) ∧
    connect_ib sConn creq1 behOk =
      ({ status := true, message := "Already connected", clientId := 1,
         net_liquidity := some "1000.0", currency := some "USD",
         account_id := some "DU111" },
       sConn, [Event.lockAcquire, Event.brokerOp "accountSummaryAsync", Event.lockRelease]) :=
  ⟨⟨rfl, rfl, rfl⟩, c3_connect_already_connected sConn creq1 behOk sessConn acct1 [] rfl rfl rfl⟩

/-- C4 counterexample: client 1 is present in the registry with a
disconnected session of identity 0, yet after connect the registry holds a
session of identity 1 for client 1 and the allocation counter advanced: the
stored session object was replaced by a newly constructed one, refuting the
claim that a present entry is returned unchanged whether connected or
disconnected. -/
theorem c4_counterexample :
    (findEntry sDisc 1).map (fun ib => ib.sid) = some 0 ∧
    (findEntry (connect_ib sDisc creq1 behOk).2.1 1).map (fun ib => ib.sid) = some 1 ∧
    (connect_ib sDisc creq1 behOk).2.1.nextSid = 2 :=
  ⟨rfl, rfl, rfl⟩

/-- C4 amended: only a present-and-connected client id leaves the registry
mapping unchanged under connect; a present-but-disconnected client id (like a
never-seen one) causes a new session object to be constructed and stored in
place of the old one, with the allocation counter advanced. -/
theorem c4_amended_create_or_replace (s : SysState) (req : ConnectRequest)
    (nb : SessionBehavior) (sess : IBSession)
    (hfind : findEntry s req.client_id = some sess) :
    (sess.connected = true → (connect_ib s req nb).2.1 = s) ∧
    (sess.connected = false →
      (findEntry (connect_ib s req nb).2.1 req.client_id).map (fun ib => ib.sid) =
        some s.nextSid ∧
      (connect_ib s req nb).2.1.nextSid = s.nextSid + 1) := by
  constructor
  · intro hc
    cases hacc : sess.beh.accountSummary with
    | error e => simp [connect_ib, connectBody, runHandler, hfind, hc, hacc]
    | ok l =>
      cases l with
      | nil => simp [connect_ib, connectBody, runHandler, hfind, hc, hacc]
      | cons a as => simp [connect_ib, connectBody, runHandler, hfind, hc, hacc]
  · intro hc
    cases hcr : nb.connectResult with
    | error e =>
      simp [connect_ib, connectBody, connectFresh, runHandler, hfind, hc, hcr,
        findEntry_freshState, freshState_nextSid]
    | ok b =>
      cases b with
      | false =>
        simp [connect_ib, connectBody, connectFresh, runHandler, hfind, hc, hcr,
          findEntry_freshConnState, freshConnState_nextSid]
      | true =>
        cases hacc : nb.accountSummary with
        | error e =>
          simp [connect_ib, connectBody, connectFresh, runHandler, hfind, hc, hcr, hacc,
            findEntry_freshConnState, freshConnState_nextSid]
        | ok l =>
          cases l with
          | nil =>
            simp [connect_ib, connectBody, connectFresh, runHandler, hfind, hc, hcr, hacc,
              findEntry_freshConnState, freshConnState_nextSid]
          | cons a as =>
            simp [connect_ib, connectBody, connectFresh, runHandler, hfind, hc, hcr, hacc,
              findEntry_freshConnState, freshConnState_nextSid]

/-- Witness for the amended C4 at concrete inputs: a connected entry is left
unchanged, a disconnected entry is replaced by a fresh session object. -/
theorem c4_amended_create_or_replace_witness :
    (findEntry sConn 1 = some sessConn ∧ sessConn.connected = true ∧
      (connect_ib sConn creq1 behOk).2.1 = sConn) ∧
    (findEntry sDisc 1 = some sessDisc ∧ sessDisc.connected = false ∧
      (findEntry (connect_ib sDisc creq1 behOk).2.1 1).map (fun ib => ib.sid) = some 1 ∧
      (connect_ib sDisc creq1 behOk).2.1.nextSid = 2) :=
  ⟨⟨rfl, rfl, (c4_amended_create_or_replace sConn creq1 behOk sessConn rfl).1 rfl⟩,
   ⟨rfl, rfl, ((c4_amended_create_or_replace sDisc creq1 behOk sessDisc rfl).2 rfl).1,
    ((c4_amended_create_or_replace sDisc creq1 behOk sessDisc rfl).2 rfl).2⟩⟩

/-- C5 (code bug): for every state and client id, in particular a present and
connected one, disconnect raises at its synchronous with-statement on the
asyncio lock before the guard runs: it returns the status-false Error
response, leaves the registry entry for the client id exactly as it was,
acquires no lock and calls no session operation (empty trace).  The
status-true Disconnected response and the entry removal the claim describes
never happen. -/
theorem c5_disconnect_always_error (s : SysState) (cid : Int) :
    disconnect_ib s cid = (errResp cid lockTypeError, s, []) ∧
    findEntry (disconnect_ib s cid).2.1 cid = findEntry s cid ∧
    (errResp cid lockTypeError).status = false :=
  ⟨rfl, rfl, rfl⟩

/-- C7 (code bug): at the failing input, client 1 present with a disconnected
session, disconnect returns the status-false Error response produced by the
with-statement raise, not the status-true already-disconnected response the
claim asserts.  The frame part of the claim does hold: the state is returned
unchanged (the entry stays in the registry) and the empty trace shows no
session operation and no lock acquisition. -/
theorem c7_disconnect_error_not_already :
    findEntry sDisc 1 = some sessDisc ∧ sessDisc.connected = false ∧
    disconnect_ib sDisc 1 = (errResp 1 lockTypeError, sDisc, []) ∧
    (disconnect_ib sDisc 1).1.status = false ∧
    (disconnect_ib sDisc 1).1.message ≠ "Already disconnected" := by
  refine ⟨rfl, rfl, rfl, rfl, ?_⟩
  decide

/-- C8 (code bug): at the failing input, an absent client 1 on the empty
registry, disconnect returns the status-false Error response produced by the
with-statement raise, not a no-connection-found result.  The frame part of
the claim does hold: the state is returned unchanged, so nothing was
inserted, removed or replaced. -/
theorem c8_disconnect_error_not_noconn :
    findEntry sEmpty 1 = none ∧
    disconnect_ib sEmpty 1 = (errResp 1 lockTypeError, sEmpty, []) ∧
    (disconnect_ib sEmpty 1).1.message ≠ "No connection found for clientId" ∧
    (disconnect_ib sEmpty 1).2.1 = sEmpty := by
  refine ⟨rfl, rfl, ?_, rfl⟩
  decide

/-- A trace that never acquires the lock has no network call under the lock. -/
theorem netUnderLockAux_no_acquire (es : List Event)
    (h : ∀ e ∈ es, e ≠ Event.lockAcquire) : netUnderLockAux 0 es = [] := by
  induction es with
  | nil => rfl
  | cons e es ih =>
    have he := h e (List.mem_cons_self e es)
    have hrest : ∀ x ∈ es, x ≠ Event.lockAcquire := fun x hx => h x (List.mem_cons_of_mem e hx)
    cases e with
    | lockAcquire => exact absurd rfl he
    | lockRelease => simpa [netUnderLockAux] using ih hrest
    | brokerOp n => simpa [netUnderLockAux] using ih hrest
    | place o => simpa [netUnderLockAux] using ih hrest

/-- A trace that takes the lock once, immediately releases it, and never
reacquires it has no network call under the lock. -/
theorem netUnderLock_guard (tail : List Event)
    (h : ∀ e ∈ tail, e ≠ Event.lockAcquire) :
    netUnderLock (Event.lockAcquire :: Event.lockRelease :: tail) = [] := by
  have h1 : netUnderLock (Event.lockAcquire :: Event.lockRelease :: tail) =
      netUnderLockAux 0 tail := by
    simp [netUnderLock, netUnderLockAux]
  rw [h1]
  exact netUnderLockAux_no_acquire tail h

/-- Every event the cancel loop emits is a cancelOrder broker call. -/
theorem runCancels_events (beh : SessionBehavior) :
    ∀ (ts : List Trade) (i : Nat), ∀ e ∈ (runCancels beh ts i).2,
      e = Event.brokerOp "cancelOrder" := by
  intro ts
  induction ts with
  | nil => intro i e he; simp [runCancels] at he
  | cons t ts ih =>
    intro i e he
    cases hc : beh.cancelResult i with
    | ok u =>
      rw [runCancels, hc] at he
      simp at he
      rcases he with rfl | he
      · rfl
      · exact ih (i + 1) e he
    | error msg =>
      rw [runCancels, hc] at he
      simp at he
      exact he

/-- When every cancelOrder call succeeds, the cancel loop succeeds and emits
one cancelOrder call per trade. -/
theorem runCancels_ok (beh : SessionBehavior)
    (hok : ∀ i, beh.cancelResult i = Except.ok ()) :
    ∀ (ts : List Trade) (i : Nat),
      runCancels beh ts i =
        (Except.ok (), List.replicate ts.length (Event.brokerOp "cancelOrder")) := by
  intro ts
  induction ts with
  | nil => intro i; rfl
  | cons t ts ih =>
    intro i
    rw [runCancels, hok i, ih (i + 1)]
    simp [List.replicate_succ]

/-- The trace of the connect handler has at most the account-summary fetch of
the reuse path under the lock; in particular the `connectAsync` network call
is never made while the lock is held. -/
theorem connect_netUnderLock (s : SysState) (req : ConnectRequest) (nb : SessionBehavior) :
    ∀ e ∈ netUnderLock (connect_ib s req nb).2.2,
      e = Event.brokerOp "accountSummaryAsync" := by
  rw [connect_ib, runHandler_trace]
  unfold connectBody connectFresh
  repeat' split
  all_goals intro e he
  all_goals simp [netUnderLock, netUnderLockAux, isNetCall, netName] at he
  all_goals simp [he]

/-- The disconnect trace has no network call under the lock: the handler
raises before acquiring the lock, so its trace is empty. -/
theorem disconnect_netUnderLock (s : SysState) (cid : Int) :
    netUnderLock (disconnect_ib s cid).2.2 = [] := rfl

/-- The accounts trace has no network call under the lock: the handler
raises before acquiring the lock, so its trace is empty. -/
theorem get_accounts_netUnderLock (s : SysState) (cid : Int) :
    netUnderLock (get_accounts s cid).2.2 = [] := rfl

/-- The account-detail trace has no network call under the lock (it takes no
lock at all). -/
theorem get_account_detail_netUnderLock (s : SysState) (cid : Int) :
    netUnderLock (get_account_detail s cid).2.2 = [] := by
  rw [get_account_detail, runHandler_trace]
  unfold get_account_detailBody
  repeat' split
  all_goals rfl

/-- The send-order trace has no network call under the lock. -/
theorem place_gtc_orders_netUnderLock (s : SysState) (req : OrderRequest) :
    netUnderLock (place_gtc_orders s req).2.2 = [] := by
  rw [place_gtc_orders, runHandler_trace]
  unfold place_gtc_ordersBody
  repeat' split
  all_goals rfl

/-- The tail of a flatten trace after the guard: the openTrades read, the
cancel-loop events, and a literal list of further broker calls; none of these
acquires the lock. -/
theorem flatten_tail_guard (beh : SessionBehavior) (ts : List Trade) (i : Nat)
    (rest : List Event) (hrest : rest.all (fun e => !(e == Event.lockAcquire)) = true) :
    netUnderLock (Event.lockAcquire :: Event.lockRelease :: Event.brokerOp "openTrades" ::
      ((runCancels beh ts i).2 ++ rest)) = [] := by
  apply netUnderLock_guard
  intro e he
  rcases List.mem_cons.mp he with rfl | he2
  · simp
  · rcases List.mem_append.mp he2 with h3 | h3
    · rw [runCancels_events beh ts i e h3]
      simp
    · have h4 := List.all_eq_true.mp hrest e h3
      simpa using h4

/-- The flatten trace has no network call under the lock. -/
theorem flatten_order_netUnderLock (s : SysState) (req : FlattenOrderRequest) :
    netUnderLock (flatten_order s req).2.2 = [] := by
  rw [flatten_order, runHandler_trace]
  unfold flatten_orderBody
  repeat' split
  all_goals first
    | rfl
    | exact flatten_tail_guard _ _ _ _ rfl
    | (simpa using flatten_tail_guard _ _ 0 [] rfl)

/-- The contracts-position trace has no network call under the lock. -/
theorem get_contracts_position_netUnderLock (s : SysState) (cid : Int) :
    netUnderLock (get_contracts_position s cid).2.2 = [] := by
  rw [get_contracts_position, runHandler_trace]
  unfold get_contracts_positionBody
  repeat' split
  all_goals rfl

/-- The orders trace has no network call under the lock. -/
theorem get_orders_netUnderLock (s : SysState) (cid : Int) :
    netUnderLock (get_orders s cid).2.2 = [] := by
  rw [get_orders, runHandler_trace]
  unfold get_ordersBody
  repeat' split
  all_goals rfl

/-- C6 counterexample: on a registry holding a connected session for client 1,
the connect handler awaits the account-summary network fetch of its
already-connected reuse path while holding the module-level lock, so the
claim that no operation awaits a network call into a session under the lock
fails. -/
theorem c6_counterexample :
    netUnderLock (connect_ib sConn creq1 behOk).2.2 =
      [Event.brokerOp "accountSummaryAsync"] ∧
    isNetCall (Event.brokerOp "accountSummaryAsync") = true := by
  constructor
  · rfl
  · rfl

/-- C6 amended: for disconnect, accounts, account-detail, send-order,
flatten, contracts-position and orders the lock is held only across the
in-memory registry accesses: their traces have no network call under the
lock, for every state, input and collaborator behavior (disconnect and
accounts in fact never acquire the lock at all, since they raise at their
synchronous with-statement, and account-detail takes no lock).  For connect
the same holds for the `connectAsync` network call itself, but the
already-connected reuse path awaits the account-summary fetch under the lock:
any network call that connect makes while holding the lock is that fetch. -/
theorem c6_amended_lock_scope (s : SysState) (cid : Int) (creq : ConnectRequest)
    (nb : SessionBehavior) (oreq : OrderRequest) (freq : FlattenOrderRequest) :
    netUnderLock (disconnect_ib s cid).2.2 = [] ∧
    netUnderLock (get_accounts s cid).2.2 = [] ∧
    netUnderLock (get_account_detail s cid).2.2 = [] ∧
    netUnderLock (place_gtc_orders s oreq).2.2 = [] ∧
    netUnderLock (flatten_order s freq).2.2 = [] ∧
    netUnderLock (get_contracts_position s cid).2.2 = [] ∧
    netUnderLock (get_orders s cid).2.2 = [] ∧
    (∀ e ∈ netUnderLock (connect_ib s creq nb).2.2,
      e = Event.brokerOp "accountSummaryAsync") :=
  ⟨disconnect_netUnderLock s cid, get_accounts_netUnderLock s cid,
   get_account_detail_netUnderLock s cid, place_gtc_orders_netUnderLock s oreq,
   flatten_order_netUnderLock s freq, get_contracts_position_netUnderLock s cid,
   get_orders_netUnderLock s cid, connect_netUnderLock s creq nb⟩

/-- placedOrders distributes over trace concatenation. -/
theorem placedOrders_append (l1 l2 : List Event) :
    placedOrders (l1 ++ l2) = placedOrders l1 ++ placedOrders l2 := by
  induction l1 with
  | nil => rfl
  | cons e es ih => cases e <;> simp [placedOrders, ih]

/-- A run of identical broker calls submits no orders. -/
theorem placedOrders_replicate_broker (n : Nat) (m : String) :
    placedOrders (List.replicate n (Event.brokerOp m)) = [] := by
  induction n with
  | zero => rfl
  | succ k ih => simp [List.replicate_succ, placedOrders, ih]

/-- C9: on a present, connected session, after the cancel step of flatten the
submitted order is the offsetting market order decided by the sign of the
queried position: a positive position yields a market SELL of that quantity,
a negative position a market BUY of the absolute quantity (both with the
requested tif), and a zero or absent position yields a status-false response
with no order submitted. -/
theorem c9_flatten_offsetting_order (s : SysState) (req : FlattenOrderRequest)
    (sess : IBSession) (t0 : Trade) (ts : List Trade) (ps : List Position)
    (hfind : findEntry s req.client_id = some sess)
    (hconn : sess.connected = true)
    (hfilter : sess.beh.openTradesResult.filter
      (fun t => t.contract.symbol == req.symbol) = t0 :: ts)
    (hcancel : ∀ i, sess.beh.cancelResult i = Except.ok ())
    (hq : sess.beh.qualifyResult = Except.ok ())
    (hp : sess.beh.positionsResult = Except.ok ps) :
    (∀ pos, ps.find? (fun p => p.symbol == req.symbol) = some pos →
      (0 < pos.position →
        placedOrders (flatten_order s req).2.2 =
          [{ action := "SELL", orderType := "MKT", totalQuantity := pos.position,
             price := none, tif := some req.tif }]) ∧
      (pos.position < 0 →
        placedOrders (flatten_order s req).2.2 =
          [{ action := "BUY", orderType := "MKT", totalQuantity := abs pos.position,
             price := none, tif := some req.tif }]) ∧
      (pos.position = 0 →
        (flatten_order s req).1 =
          { status := false, message := "No position to flatten",
            clientId := req.client_id } ∧
        placedOrders (flatten_order s req).2.2 = [])) ∧
    (ps.find? (fun p => p.symbol == req.symbol) = none →
      (flatten_order s req).1 =
        { status := false, message := "No position found for symbol " ++ req.symbol,
          clientId := req.client_id } ∧
      placedOrders (flatten_order s req).2.2 = []) := by
  have hrun := runCancels_ok sess.beh hcancel (t0 :: ts) 0
  constructor
  · intro pos hpos
    refine ⟨fun hgt => ?_, fun hlt => ?_, fun hz => ?_⟩
    · cases hpl : sess.beh.placeOrderResult 0 with
      | error e3 =>
        simp [flatten_order, flatten_orderBody, runHandler, hfind, hconn, hfilter, hrun,
          hq, hp, hpos, hpl, hgt, placedOrders, placedOrders_append,
          placedOrders_replicate_broker, MarketOrder]
      | ok u =>
        simp [flatten_order, flatten_orderBody, runHandler, hfind, hconn, hfilter, hrun,
          hq, hp, hpos, hpl, hgt, placedOrders, placedOrders_append,
          placedOrders_replicate_broker, MarketOrder]
    · have hngt : ¬ (0 < pos.position) := by omega
      cases hpl : sess.beh.placeOrderResult 0 with
      | error e3 =>
        simp [flatten_order, flatten_orderBody, runHandler, hfind, hconn, hfilter, hrun,
          hq, hp, hpos, hpl, hlt, hngt, placedOrders, placedOrders_append,
          placedOrders_replicate_broker, MarketOrder]
      | ok u =>
        simp [flatten_order, flatten_orderBody, runHandler, hfind, hconn, hfilter, hrun,
          hq, hp, hpos, hpl, hlt, hngt, placedOrders, placedOrders_append,
          placedOrders_replicate_broker, MarketOrder]
    · simp [flatten_order, flatten_orderBody, runHandler, hfind, hconn, hfilter, hrun,
        hq, hp, hpos, hz, placedOrders, placedOrders_append,
        placedOrders_replicate_broker]
  · intro hnone
    simp [flatten_order, flatten_orderBody, runHandler, hfind, hconn, hfilter, hrun,
      hq, hp, hnone, placedOrders, placedOrders_append, placedOrders_replicate_broker]

/-- Witness for C9: the connected client 1 with one open AAPL trade and a
long position of 5 gets exactly one offsetting market SELL of 5. -/
theorem c9_flatten_offsetting_order_witness :
    (findEntry sConn 1 = some sessConn ∧ sessConn.connected = true ∧
      sessConn.beh.openTradesResult.filter (fun t => t.contract.symbol == "AAPL") =
        [tradeA] ∧
      sessConn.beh.qualifyResult = Except.ok () ∧
      sessConn.beh.positionsResult = Except.ok [{ symbol := "AAPL", position := 5 }] ∧
      ([({ symbol := "AAPL", position := 5 } : Position)].find?
        (fun p => p.symbol == "AAPL")) = some { symbol := "AAPL", position := 5 } ∧
      (0 : Int) < 5) ∧
    placedOrders (flatten_order sConn freq1).2.2 =
      [{ action := "SELL", orderType := "MKT", totalQuantity := 5, price := none,
         tif := some "GTC" }] := by
  refine ⟨⟨rfl, rfl, by decide, rfl, rfl, by decide, by decide⟩, ?_⟩
  exact ((c9_flatten_offsetting_order sConn freq1 sessConn tradeA []
    [{ symbol := "AAPL", position := 5 }] rfl rfl (by decide) (fun _ => rfl) rfl rfl).1
    { symbol := "AAPL", position := 5 } (by decide)).1 (by decide)

/-- C10: for every send-order request that passes the connection guard, every
order the handler submits satisfies: a market order is a BUY of exactly
`position_qty` (whatever its sign), and a stop or limit order is a SELL of
`abs position_qty`; no run submits a SELL market entry or a BUY stop or
target order. -/
theorem c10_send_order_sides (s : SysState) (req : OrderRequest) (sess : IBSession)
    (_hfind : findEntry s req.client_id = some sess) (_hconn : sess.connected = true) :
    ∀ o ∈ placedOrders (place_gtc_orders s req).2.2,
      (o.orderType = "MKT" → o.action = "BUY" ∧ o.totalQuantity = req.position_qty) ∧
      ((o.orderType = "STP" ∨ o.orderType = "LMT") →
        o.action = "SELL" ∧ o.totalQuantity = abs req.position_qty) := by
  rw [place_gtc_orders, runHandler_trace]
  unfold place_gtc_ordersBody
  repeat' split
  all_goals intro o ho
  all_goals simp only [placedOrders, List.mem_cons, List.not_mem_nil, or_false,
    List.mem_singleton] at ho
  all_goals rcases ho with rfl | rfl | rfl
  all_goals simp [MarketOrder, StopOrder, LimitOrder]

/-- Witness for C10: the connected client 1 with a send-order request of
quantity 5 only submits the market BUY entry and SELL stop and target
orders. -/
theorem c10_send_order_sides_witness :
    (findEntry sConn 1 = some sessConn ∧ sessConn.connected = true) ∧
    (∀ o ∈ placedOrders (place_gtc_orders sConn oreq1).2.2,
      (o.orderType = "MKT" → o.action = "BUY" ∧ o.totalQuantity = oreq1.position_qty) ∧
      ((o.orderType = "STP" ∨ o.orderType = "LMT") →
        o.action = "SELL" ∧ o.totalQuantity = abs oreq1.position_qty)) :=
  ⟨⟨rfl, rfl⟩, c10_send_order_sides sConn oreq1 sessConn rfl rfl⟩

/-- C2: every action (connect, disconnect, accounts, account-detail,
send-order, flatten, contracts-position, orders) is a total function into the
structured response record for every input, every registry state and every
collaborator behavior, including behaviors in which any broker call raises an
exception: so no exception passes the action boundary, and the returned record
always carries a status flag and the originating client id. -/
theorem c2_total_structured_response (s : SysState) (creq : ConnectRequest)
    (nb : SessionBehavior) (cid : Int) (oreq : OrderRequest) (freq : FlattenOrderRequest) :
    (connect_ib s creq nb).1.clientId = creq.client_id ∧
    (disconnect_ib s cid).1.clientId = cid ∧
    (get_accounts s cid).1.clientId = cid ∧
    (get_account_detail s cid).1.clientId = cid ∧
    (place_gtc_orders s oreq).1.clientId = oreq.client_id ∧
    (flatten_order s freq).1.clientId = freq.client_id ∧
    (get_contracts_position s cid).1.clientId = cid ∧
    (get_orders s cid).1.clientId = cid :=
  ⟨connect_ib_clientId s creq nb, disconnect_ib_clientId s cid, get_accounts_clientId s cid,
   get_account_detail_clientId s cid, place_gtc_orders_clientId s oreq,
   flatten_order_clientId s freq, get_contracts_position_clientId s cid,
   get_orders_clientId s cid⟩

end IBroker

